import Mathlib

/-!
Shallow embedding of the persistence layer of the greed Telegram storefront
bot (`database.py`): users, wallet transactions, products, orders and order
items, together with the ledger and formatting operations, and proofs of the
specification claims about them.

Modelling conventions:
* SQLAlchemy rows become Lean structures; nullable columns become `Option`.
* The ORM relationships are resolved eagerly: `User.transactions` is a list
  field, `Order.transaction`, `Order.items`, `Order.user` and
  `OrderItem.product` are fields holding the referenced rows.
* `DateTime` values are abstract timestamps modelled as `Nat`.
* The external collaborators (localization lookup `w.loc.get`, the `Price`
  formatter from the worker module, the config flag
  `Appearance.full_order_info`) are bundled into a `Worker` record of total
  functions; they are out of scope per the spec and only their signatures
  matter here.
* Python integers are `Int`; ids are `Nat`.
-/

/-- A wallet transaction row (table `transactions`).  The `user` and `order`
relationship attributes are represented by the owning `User.transactions`
list and `Order.transaction` field instead of back-pointers. -/
structure Transaction where
  transaction_id : Nat
  user_id : Int
  value : Int
  refunded : Bool
  notes : Option String
  provider : Option String
  telegram_charge_id : Option String
  provider_charge_id : Option String
  payment_name : Option String
  payment_phone : Option String
  payment_email : Option String
  order_id : Option Nat
  deriving Repr, DecidableEq

/-- Sets `refunded = True` on a transaction, as done by the refund flow
(the spec's `markRefunded`); in the source this is a plain attribute
assignment on the `refunded` column. -/
def Transaction.mark_refunded (t : Transaction) : Transaction :=
  { t with refunded := true }

/-- A user row (table `users`), with the `transactions` backref resolved to
the list of transaction rows owned by the user. -/
structure User where
  user_id : Int
  first_name : String
  last_name : Option String
  username : Option String
  language : String
  credit : Int
  transactions : List Transaction
  deriving Repr, DecidableEq

/-- `User.mention`: mention the user in the best way possible. -/
def User.mention (u : User) : String :=
  match u.username with
  | some un => "@" ++ un
  | none => "[" ++ u.first_name ++ "](tg://user?id=" ++ toString u.user_id ++ ")"

/-- `User.recalculate_credit`: recalculate the credit for this user by
calculating the sum of the values of all their transactions, skipping the
refunded ones. -/
def User.recalculate_credit (u : User) : User :=
  let valid_transactions : List Transaction := u.transactions.filter (fun t => !t.refunded)
  { u with credit := (valid_transactions.map (fun t => t.value)).sum }

/-- A product row (table `products`).  The binary `image` payload is omitted:
it never influences any formatted text or ledger value. -/
structure Product where
  id : Nat
  name : String
  description : String
  price : Int
  deleted : Bool
  deriving Repr, DecidableEq

/-- The external collaborators consumed by the formatting methods, bundled:
`loc` is the localization lookup `w.loc.get(key, **params)` (parameters
passed as association list), `priceFmt` is `str(w.Price(v))`, `priceMulFmt`
is `str(w.Price(v) * qty)` (the `Price` scalar multiplication lives in the
worker module, outside this core), and `full_order_info_no` is the
configuration test `w.cfg["Appearance"]["full_order_info"] == "no"`. -/
structure Worker where
  loc : String → List (String × String) → String
  priceFmt : Int → String
  priceMulFmt : Int → Option Int → String
  full_order_info_no : Bool

/-- Modelled from the spec: `utils.telegram_html_escape` (the `utils` module
is not part of src); escapes the HTML-special characters. -/
def telegram_html_escape (s : String) : String :=
  ((((s.replace "&" "&amp;").replace "<" "&lt;").replace ">" "&gt;").replace "\"" "&quot;")

/-- Python `str` of an optional integer as it appears inside an f-string. -/
def pyShow : Option Int → String
  | some n => toString n
  | none => "None"

/-- Python `str` of an optional string as it appears inside a format call. -/
def pyShowStr : Option String → String
  | some s => s
  | none => "None"

/-- `Product.text`: return the product details formatted with Telegram HTML.
A `style` outside `short`/`full` raises `ValueError("style is not an
accepted value")`, modelled as `Except.error`. -/
def Product.text (p : Product) (w : Worker) (style : String) (cart_qty : Option Int) :
    Except String String :=
  if style = "short" then
    Except.ok (pyShow cart_qty ++ "x " ++ telegram_html_escape p.name ++ " - "
      ++ w.priceMulFmt p.price cart_qty)
  else if style = "full" then
    let cart : String :=
      match cart_qty with
      | some q => w.loc "in_cart_format_string" [("quantity", toString q)]
      | none => ""
    Except.ok (w.loc "product_format_string"
      [("name", telegram_html_escape p.name),
       ("description", telegram_html_escape p.description),
       ("price", w.priceFmt p.price),
       ("cart", cart)])
  else
    Except.error "style is not an accepted value"

/-- An order item row (table `order_items`), with the `product` relationship
resolved to the referenced product row.  Note the schema stores only a
`quantity`: no price is snapshotted on the item. -/
structure OrderItem where
  item_id : Nat
  order_id : Nat
  product : Product
  quantity : Int
  deriving Repr, DecidableEq

/-- `OrderItem.text`: return the formatted text for this item,
`f"{quantity}x {product.name} - {Price(product.price * quantity)}"`. -/
def OrderItem.text (i : OrderItem) (w : Worker) : String :=
  toString i.quantity ++ "x " ++ i.product.name ++ " - "
    ++ w.priceFmt (i.product.price * i.quantity)

/-- An order row (table `orders`), with `user`, `items` and the linked
`transaction` relationships resolved (the source obtains the transaction via
`session.query(Order)...join(Transaction).one()`, i.e. every rendered order
has exactly one linked transaction, as the spec's invariant states). -/
structure Order where
  order_id : Nat
  user : User
  creation_date : Nat
  delivery_date : Option Nat
  refund_date : Option Nat
  refund_reason : Option String
  items : List OrderItem
  notes : Option String
  transaction : Transaction
  deriving Repr, DecidableEq

/-- The derived status of an order, as the spec describes it: `Delivered`
when `delivery_date` is set, else `Refunded` when `refund_date` is set,
else `Pending`. -/
inductive OrderStatus where
  | Pending
  | Delivered
  | Refunded
  deriving Repr, DecidableEq

/-- Derived order status (not stored); mirrors the branch structure of the
`if`/`elif`/`else` in `Order.text`. -/
def Order.status (o : Order) : OrderStatus :=
  if o.delivery_date.isSome then OrderStatus.Delivered
  else if o.refund_date.isSome then OrderStatus.Refunded
  else OrderStatus.Pending

/-- The `(status_emoji, status_text)` pair chosen by the `if`/`elif`/`else`
at the top of `Order.text`. -/
def Order.statusPair (o : Order) (w : Worker) : String × String :=
  if o.delivery_date.isSome then
    (w.loc "emoji_completed" [], w.loc "text_completed" [])
  else if o.refund_date.isSome then
    (w.loc "emoji_refunded" [], w.loc "text_refunded" [])
  else
    (w.loc "emoji_not_processed" [], w.loc "text_not_processed" [])

/-- `datetime.isoformat()` on our abstract timestamps. -/
def isoformat (d : Nat) : String := toString d

/-- `Order.text`: the formatted order.  `user` is the keyword flag of the
source; when it is set and `full_order_info` is configured `"no"`, the
compact customer-facing branch is used, otherwise the full branch. -/
def Order.text (o : Order) (w : Worker) (user : Bool) : String :=
  let items : String := o.items.foldl (fun acc i => acc ++ i.text w ++ "\n") ""
  let sp := o.statusPair w
  let value : String := w.priceFmt (-o.transaction.value)
  if user && w.full_order_info_no then
    w.loc "user_order_format_string"
      [("status_emoji", sp.1), ("status_text", sp.2), ("items", items),
       ("notes", pyShowStr o.notes), ("value", value)]
    ++ (if o.refund_date.isSome then
          w.loc "refund_reason" [("reason", pyShowStr o.refund_reason)]
        else "")
  else
    sp.1 ++ " " ++ w.loc "order_number" [("id", toString o.order_id)] ++ "\n"
    ++ w.loc "order_format_string"
      [("user", o.user.mention), ("date", isoformat o.creation_date),
       ("items", items), ("notes", o.notes.getD ""), ("value", value)]
    ++ (if o.refund_date.isSome then
          w.loc "refund_reason" [("reason", pyShowStr o.refund_reason)]
        else "")

/-- Modelled from the spec: `deliver(order)` lives in the bot's command
handlers (the worker module, not under src).  It sets `delivery_date = now`
and fails with `AlreadyFinalizedError` if `refund_date` is already set. -/
def Order.deliver (o : Order) (now : Nat) : Except String Order :=
  if o.refund_date.isSome then Except.error "AlreadyFinalizedError"
  else Except.ok { o with delivery_date := some now }

/-- Modelled from the spec: `refund(order, reason)` lives in the bot's
command handlers (not under src).  It sets `refund_date = now` and
`refund_reason = reason`, marks the linked transaction refunded, and fails
with `AlreadyFinalizedError` if `delivery_date` is already set. -/
def Order.refund (o : Order) (now : Nat) (reason : String) : Except String Order :=
  if o.delivery_date.isSome then Except.error "AlreadyFinalizedError"
  else Except.ok { o with refund_date := some now, refund_reason := some reason,
                          transaction := o.transaction.mark_refunded }

/-- Modelled from the spec: persisting a transaction row.  The source only
declares `UniqueConstraint("provider", "provider_charge_id")` in
`Transaction.__table_args__`; its enforcement is done by the database engine
(not under src): an insert whose non-null `(provider, provider_charge_id)`
pair already exists in the ledger fails with `DuplicateChargeError` and
leaves the ledger unchanged (SQL uniqueness ignores rows where either column
is null). -/
def record_transaction (ledger : List Transaction) (t : Transaction) :
    Except String (List Transaction) :=
  if t.provider.isSome && t.provider_charge_id.isSome
      && ledger.any (fun t2 => t2.provider == t.provider
          && t2.provider_charge_id == t.provider_charge_id) then
    Except.error "DuplicateChargeError"
  else
    Except.ok (ledger ++ [t])

/-! ### Concrete sample data used by scenario parts and witnesses -/

/-- A transaction with only the ledger-relevant fields set. -/
def mkTx (i : Nat) (v : Int) (r : Bool) : Transaction :=
  { transaction_id := i, user_id := 1, value := v, refunded := r,
    notes := none, provider := none, telegram_charge_id := none,
    provider_charge_id := none, payment_name := none, payment_phone := none,
    payment_email := none, order_id := none }

/-- A transaction carrying payment-provider data. -/
def mkChargeTx (i : Nat) (prov cid : String) : Transaction :=
  { mkTx i 100 false with provider := some prov, provider_charge_id := some cid }

/-- A user owning the given transactions. -/
def mkUser (ts : List Transaction) : User :=
  { user_id := 1, first_name := "U", last_name := none, username := none,
    language := "en", credit := 0, transactions := ts }

/-- A worker whose localization returns, for the two order format strings,
exactly the `value` parameter it was handed, and the empty string for every
other key; its price formatter brackets the amount.  Rendering an order
through it exposes which amount `Order.text` hands to the localization
layer as the order value. -/
def wProbe : Worker :=
  { loc := fun key params =>
      if key == "user_order_format_string" || key == "order_format_string" then
        (List.lookup "value" params).getD ""
      else "",
    priceFmt := fun v => "[" ++ toString v ++ "]",
    priceMulFmt := fun _ _ => "",
    full_order_info_no := true }

/-- A plain concrete worker for evaluating the formatting functions. -/
def wTest : Worker :=
  { loc := fun key _ => key,
    priceFmt := fun v => toString v,
    priceMulFmt := fun v q => toString (v * q.getD 0),
    full_order_info_no := false }

/-- A concrete product. -/
def sampleProduct : Product :=
  { id := 1, name := "P", description := "D", price := 150, deleted := false }

/-- A concrete pending order (neither delivered nor refunded). -/
def sampleOrder : Order :=
  { order_id := 1, user := mkUser [], creation_date := 0, delivery_date := none,
    refund_date := none, refund_reason := none, items := [], notes := none,
    transaction := mkTx 1 (-300) false }

/-- `sampleOrder` after a successful delivery at time 5. -/
def deliveredSample : Order :=
  { sampleOrder with delivery_date := some 5 }

/-- `sampleOrder` after a successful refund at time 5. -/
def refundedSample : Order :=
  { sampleOrder with refund_date := some 5, refund_reason := some "r",
                     transaction := (mkTx 1 (-300) false).mark_refunded }

/-- A concrete order item: 3 units of `sampleProduct`. -/
def sampleItem : OrderItem :=
  { item_id := 1, order_id := 1, product := sampleProduct, quantity := 3 }

/-! ### Helper lemmas -/

/-- The credit computed by `recalculate_credit`, restated as a fold over all
transactions where refunded ones contribute `0`. -/
theorem recalc_credit_eq (u : User) :
    (User.recalculate_credit u).credit
      = (u.transactions.map (fun t => if t.refunded then 0 else t.value)).sum := by
  show ((u.transactions.filter (fun t => !t.refunded)).map (fun t => t.value)).sum
      = (u.transactions.map (fun t => if t.refunded then 0 else t.value)).sum
  induction u.transactions with
  | nil => rfl
  | cons t l ih =>
    cases h : t.refunded with
    | false => simp [List.filter_cons, h, ih]
    | true => simp [List.filter_cons, h, ih]

/-! ### Claims -/

/-- C1: for every user, `recalculate_credit` overwrites `credit` with exactly
the sum of `value` over the transactions whose `refunded` flag is false
(refunded ones contributing nothing); in particular the scenario
`[+500, -200, +100 refunded]` yields credit 300. -/
theorem C1_recalculate_credit_sum :
    (∀ u : User,
      (User.recalculate_credit u).credit
        = (u.transactions.map (fun t => if t.refunded then 0 else t.value)).sum)
    ∧ (User.recalculate_credit
        (mkUser [mkTx 1 500 false, mkTx 2 (-200) false, mkTx 3 100 true])).credit
      = 300 := by
  refine ⟨fun u => recalc_credit_eq u, ?_⟩
  decide

/-- C2: the credit produced by `recalculate_credit` is invariant under
permutation of the user's transaction list. -/
theorem C2_credit_perm (u : User) (ts : List Transaction)
    (h : u.transactions.Perm ts) :
    (User.recalculate_credit u).credit
      = (User.recalculate_credit { u with transactions := ts }).credit := by
  show ((u.transactions.filter (fun t => !t.refunded)).map (fun t => t.value)).sum
      = ((ts.filter (fun t => !t.refunded)).map (fun t => t.value)).sum
  exact ((h.filter _).map _).sum_eq

/-- Witness for C2 at a concrete two-transaction user and its swap. -/
theorem C2_credit_perm_witness :
    ([mkTx 1 500 false, mkTx 2 (-200) false]).Perm
        [mkTx 2 (-200) false, mkTx 1 500 false]
    ∧ (User.recalculate_credit (mkUser [mkTx 1 500 false, mkTx 2 (-200) false])).credit
      = (User.recalculate_credit (mkUser [mkTx 2 (-200) false, mkTx 1 500 false])).credit :=
  ⟨List.Perm.swap _ _ _,
   C2_credit_perm (mkUser [mkTx 1 500 false, mkTx 2 (-200) false])
     [mkTx 2 (-200) false, mkTx 1 500 false] (List.Perm.swap _ _ _)⟩

/-- C10: `recalculate_credit` mutates only the `credit` field: identity and
profile fields and the whole transaction list (hence every transaction's
`value` and `refunded` flag) are unchanged. -/
theorem C10_recalculate_credit_frame (u : User) :
    (User.recalculate_credit u).user_id = u.user_id
    ∧ (User.recalculate_credit u).first_name = u.first_name
    ∧ (User.recalculate_credit u).last_name = u.last_name
    ∧ (User.recalculate_credit u).username = u.username
    ∧ (User.recalculate_credit u).language = u.language
    ∧ (User.recalculate_credit u).transactions = u.transactions :=
  ⟨rfl, rfl, rfl, rfl, rfl, rfl⟩

/-- C3: marking an unrefunded transaction refunded and recalculating removes
exactly its value from the credit, and marking it refunded a second time
changes nothing further. -/
theorem C3_refund_removes_value (u : User) (pre post : List Transaction)
    (t : Transaction) (htr : u.transactions = pre ++ t :: post)
    (hnot : t.refunded = false) :
    (User.recalculate_credit
        { u with transactions := pre ++ t.mark_refunded :: post }).credit
      = (User.recalculate_credit u).credit - t.value
    ∧ (User.recalculate_credit
        { u with transactions := pre ++ t.mark_refunded.mark_refunded :: post }).credit
      = (User.recalculate_credit
        { u with transactions := pre ++ t.mark_refunded :: post }).credit := by
  constructor
  · rw [recalc_credit_eq, recalc_credit_eq]
    show ((pre ++ t.mark_refunded :: post).map
          (fun t => if t.refunded then 0 else t.value)).sum
        = (u.transactions.map (fun t => if t.refunded then 0 else t.value)).sum
          - t.value
    rw [htr]
    simp only [List.map_append, List.map_cons, List.sum_append, List.sum_cons,
      Transaction.mark_refunded, hnot]
    simp
    ring
  · rfl

/-- Witness for C3: a user holding `[+500, -200]`, refunding the `-200`. -/
theorem C3_refund_removes_value_witness :
    (mkUser [mkTx 1 500 false, mkTx 2 (-200) false]).transactions
        = [mkTx 1 500 false] ++ mkTx 2 (-200) false :: []
    ∧ (mkTx 2 (-200) false).refunded = false
    ∧ (User.recalculate_credit
        { mkUser [mkTx 1 500 false, mkTx 2 (-200) false] with
          transactions :=
            [mkTx 1 500 false] ++ (mkTx 2 (-200) false).mark_refunded :: [] }).credit
      = (User.recalculate_credit
          (mkUser [mkTx 1 500 false, mkTx 2 (-200) false])).credit - (-200) :=
  ⟨rfl, rfl,
   (C3_refund_removes_value (mkUser [mkTx 1 500 false, mkTx 2 (-200) false])
     [mkTx 1 500 false] [] (mkTx 2 (-200) false) rfl rfl).1⟩

/-- C4: the derived status has the exact precedence delivered-over-refunded
(`Delivered` whenever `delivery_date` is set, regardless of `refund_date`;
else `Refunded` when `refund_date` is set; else `Pending`), and the
status emoji/text pair selected inside `Order.text` follows the same
three-way rule. -/
theorem C4_order_status_precedence (o : Order) (w : Worker) :
    (o.status = OrderStatus.Delivered ↔ o.delivery_date.isSome = true)
    ∧ (o.status = OrderStatus.Refunded
        ↔ o.delivery_date = none ∧ o.refund_date.isSome = true)
    ∧ (o.status = OrderStatus.Pending
        ↔ o.delivery_date = none ∧ o.refund_date = none)
    ∧ o.statusPair w
      = (match o.status with
        | OrderStatus.Delivered => (w.loc "emoji_completed" [], w.loc "text_completed" [])
        | OrderStatus.Refunded => (w.loc "emoji_refunded" [], w.loc "text_refunded" [])
        | OrderStatus.Pending =>
            (w.loc "emoji_not_processed" [], w.loc "text_not_processed" [])) := by
  unfold Order.status Order.statusPair
  cases o.delivery_date <;> cases o.refund_date <;> simp

/-- C6: with the uniqueness constraint enforced at insert time, a second
transaction carrying the same non-null `(provider, provider_charge_id)`
pair is rejected with `DuplicateChargeError`, and the ledger after the
failed insert still holds exactly the first transaction appended. -/
theorem C6_duplicate_charge (ledger l1 : List Transaction) (t1 t2 : Transaction)
    (h1 : t1.provider.isSome = true) (h2 : t1.provider_charge_id.isSome = true)
    (hp : t2.provider = t1.provider) (hc : t2.provider_charge_id = t1.provider_charge_id)
    (hok : record_transaction ledger t1 = Except.ok l1) :
    record_transaction l1 t2 = Except.error "DuplicateChargeError"
    ∧ l1 = ledger ++ [t1] := by
  have hl1 : l1 = ledger ++ [t1] := by
    unfold record_transaction at hok
    split at hok
    · exact absurd hok (by simp)
    · exact (Except.ok.injEq _ _ ▸ hok).symm
  subst hl1
  refine ⟨?_, rfl⟩
  unfold record_transaction
  rw [if_pos]
  rw [hp, hc]
  simp only [Bool.and_eq_true, List.any_eq_true]
  refine ⟨⟨h1, h2⟩, t1, by simp, by simp⟩

/-- Witness for C6: two transactions with provider `"X"` and charge id
`"Y"` inserted into an empty ledger. -/
theorem C6_duplicate_charge_witness :
    (mkChargeTx 1 "X" "Y").provider.isSome = true
    ∧ record_transaction [mkChargeTx 1 "X" "Y"] (mkChargeTx 2 "X" "Y")
      = Except.error "DuplicateChargeError" :=
  ⟨rfl,
   (C6_duplicate_charge [] [mkChargeTx 1 "X" "Y"] (mkChargeTx 1 "X" "Y")
     (mkChargeTx 2 "X" "Y") rfl rfl rfl rfl rfl).1⟩

/-- C5: the order value displayed by `Order.text` is the negation of the
linked transaction's value, in both the customer-facing compact branch and
the full branch: rendering through `wProbe`, which echoes exactly the
`value` parameter handed to the localization layer, surfaces
`priceFmt (-transaction.value)` in each branch. -/
theorem C5_order_value_negated (o : Order) :
    Order.text o wProbe true = "[" ++ toString (-o.transaction.value) ++ "]"
    ∧ Order.text o wProbe false
      = " \n" ++ ("[" ++ (toString (-o.transaction.value) ++ "]")) := by
  cases hd : o.delivery_date <;> cases hr : o.refund_date <;>
    simp [Order.text, Order.statusPair, wProbe, hd, hr, List.lookup,
      String.append_assoc]

/-- C7: `Product.text` rejects every style outside the closed enumeration
`{"short", "full"}` with the `ValueError` "style is not an accepted value",
and for the two accepted styles it returns a string. -/
theorem C7_product_text_style (p : Product) (w : Worker) (q : Option Int)
    (style : String) :
    (style = "short" ∨ style = "full" →
      ∃ s : String, Product.text p w style q = Except.ok s)
    ∧ (style ≠ "short" → style ≠ "full" →
      Product.text p w style q = Except.error "style is not an accepted value") := by
  constructor
  · rintro (rfl | rfl)
    · exact ⟨_, rfl⟩
    · exact ⟨_, rfl⟩
  · intro h1 h2
    simp [Product.text, h1, h2]

/-- Witness for C7: the style `"bogus"` is rejected; `"short"` succeeds. -/
theorem C7_product_text_style_witness :
    ("bogus" : String) ≠ "short" ∧ ("bogus" : String) ≠ "full"
    ∧ Product.text sampleProduct wTest "bogus" none
      = Except.error "style is not an accepted value"
    ∧ (∃ s : String, Product.text sampleProduct wTest "short" (some 3) = Except.ok s) :=
  ⟨by decide, by decide,
   (C7_product_text_style sampleProduct wTest none "bogus").2 (by decide) (by decide),
   (C7_product_text_style sampleProduct wTest (some 3) "short").1 (Or.inl rfl)⟩

/-- C8: `deliver` after `refund` and `refund` after `deliver` both fail with
`AlreadyFinalizedError`; a successful `deliver` leaves `refund_date` empty
and a successful `refund` leaves `delivery_date` empty, so no order is ever
both delivered and refunded (the failing call returns only the error and
touches no field). -/
theorem C8_order_terminal (o o1 : Order) (now now2 : Nat) (reason : String) :
    (Order.deliver o now = Except.ok o1 →
      Order.refund o1 now2 reason = Except.error "AlreadyFinalizedError")
    ∧ (Order.refund o now reason = Except.ok o1 →
      Order.deliver o1 now2 = Except.error "AlreadyFinalizedError")
    ∧ (Order.deliver o now = Except.ok o1 →
      o1.delivery_date = some now ∧ o1.refund_date = none)
    ∧ (Order.refund o now reason = Except.ok o1 →
      o1.refund_date = some now ∧ o1.delivery_date = none) := by
  refine ⟨?_, ?_, ?_, ?_⟩
  · intro h
    unfold Order.deliver at h
    split at h
    · simp at h
    · injection h with h2
      subst h2
      simp [Order.refund]
  · intro h
    unfold Order.refund at h
    split at h
    · simp at h
    · injection h with h2
      subst h2
      simp [Order.deliver]
  · intro h
    unfold Order.deliver at h
    split at h
    · simp at h
    · rename_i hguard
      injection h with h2
      subst h2
      exact ⟨rfl, Option.not_isSome_iff_eq_none.mp hguard⟩
  · intro h
    unfold Order.refund at h
    split at h
    · simp at h
    · rename_i hguard
      injection h with h2
      subst h2
      exact ⟨rfl, Option.not_isSome_iff_eq_none.mp hguard⟩

/-- Witness for C8: delivering the pending `sampleOrder` succeeds, after
which refunding it fails with `AlreadyFinalizedError`. -/
theorem C8_order_terminal_witness :
    Order.deliver sampleOrder 5 = Except.ok deliveredSample
    ∧ Order.refund deliveredSample 6 "r" = Except.error "AlreadyFinalizedError" :=
  ⟨rfl, (C8_order_terminal sampleOrder deliveredSample 5 6 "r").1 rfl⟩

/-- C9: an order item renders as the quantity, the product name, and a line
total equal to the product's current price times the quantity; the price is
read live from the product row (changing the product's price changes the
rendered total), and nothing else stored on the item influences the text
(no snapshotted price exists on the `order_items` schema). -/
theorem C9_orderitem_text_live_price (i : OrderItem) (w : Worker) :
    OrderItem.text i w
      = toString i.quantity ++ "x " ++ i.product.name ++ " - "
        ++ w.priceFmt (i.product.price * i.quantity)
    ∧ (∀ p2 : Int,
        OrderItem.text { i with product := { i.product with price := p2 } } w
          = toString i.quantity ++ "x " ++ i.product.name ++ " - "
            ++ w.priceFmt (p2 * i.quantity))
    ∧ (∀ j : OrderItem, j.product = i.product → j.quantity = i.quantity →
        OrderItem.text j w = OrderItem.text i w) := by
  refine ⟨rfl, fun p2 => rfl, fun j hp hq => ?_⟩
  unfold OrderItem.text
  rw [hp, hq]

/-- Witness for C9: 3 units of the 150-priced sample product render with
total 450, and an item differing only in ids renders identically. -/
theorem C9_orderitem_text_live_price_witness :
    OrderItem.text sampleItem wTest
      = toString sampleItem.quantity ++ "x " ++ sampleItem.product.name ++ " - "
        ++ wTest.priceFmt (sampleItem.product.price * sampleItem.quantity)
    ∧ OrderItem.text
        { item_id := 99, order_id := 99, product := sampleProduct, quantity := 3 } wTest
      = OrderItem.text sampleItem wTest :=
  ⟨(C9_orderitem_text_live_price sampleItem wTest).1,
   (C9_orderitem_text_live_price sampleItem wTest).2.2
     { item_id := 99, order_id := 99, product := sampleProduct, quantity := 3 } rfl rfl⟩
